import Mathlib

/-!
Shallow embedding of the cloud-gaming-demo backend service
(`backend/service/service.py`, `backend/service/gateway.py`,
`backend/service/config.py`) and proofs about its request-forwarding,
validation and error-mapping behaviour.

JSON values are modelled by the inductive `Json`; Python runtime errors that
the handlers can raise (`TypeError`, `KeyError`) are modelled by `PyErr`, and
each handler returns an `Except PyErr Response` together with the list of
outbound gateway requests it issued, so that call-counting properties
("no outbound call is made") are expressible.
-/

/-- A decoded JSON value.  Numbers are modelled as integers, which covers every
value the handlers compare against (`200`, `201`, screen dimensions). -/
inductive Json where
  | null : Json
  | bool (b : Bool) : Json
  | num (n : Int) : Json
  | str (s : String) : Json
  | arr (xs : List Json) : Json
  | obj (fields : List (String × Json)) : Json

/-- The Python runtime errors the handlers can raise. -/
inductive PyErr where
  | typeError : PyErr
  | keyError (k : String) : PyErr
deriving DecidableEq

/-- Python truthiness of a decoded JSON value (`if not data`). -/
def Json.truthy : Json → Bool
  | .null => false
  | .bool b => b
  | .num n => n != 0
  | .str s => s.length != 0
  | .arr xs => !xs.isEmpty
  | .obj fields => !fields.isEmpty

/-- Test that `pat` occurs as a substring of `s` (Python `pat in s` for a non-empty
string `pat`): `String.splitOn` yields more than one piece exactly when the
pattern occurs. -/
def strContains (s pat : String) : Bool :=
  (s.splitOn pat).length != 1

/-- Python equality of a JSON value with a specific string (used by `in` on a
list): only a string with the same characters is equal. -/
def Json.eqStr (j : Json) (s : String) : Bool :=
  match j with
  | .str t => t == s
  | _ => false

/-- Python equality of a JSON value with a specific integer literal: an equal
integer is equal, and so is a boolean with that numeric value (`True == 1`);
every other JSON value compares unequal. -/
def Json.eqNum (j : Json) (k : Int) : Bool :=
  match j with
  | .num n => n == k
  | .bool b => (if b then (1 : Int) else 0) == k
  | _ => false

/-- Python `key in j`: key lookup on a dict, element membership on a list,
substring test on a string, `TypeError` otherwise. -/
def Json.mem (j : Json) (key : String) : Except PyErr Bool :=
  match j with
  | .obj fields => .ok (fields.find? (fun p => p.1 == key)).isSome
  | .arr xs => .ok (xs.any (fun x => x.eqStr key))
  | .str s => .ok (strContains s key)
  | _ => .error .typeError

/-- Python `j[key]` for a string key: dict lookup (raising `KeyError` when the
key is absent), `TypeError` on any other value. -/
def Json.subscript (j : Json) (key : String) : Except PyErr Json :=
  match j with
  | .obj fields =>
    match fields.find? (fun p => p.1 == key) with
    | some p => .ok p.2
    | none => .error (.keyError key)
  | _ => .error .typeError

/-- Python `len(j)`: length of a string, list or dict, `TypeError` otherwise. -/
def Json.pyLen (j : Json) : Except PyErr Nat :=
  match j with
  | .str s => .ok s.length
  | .arr xs => .ok xs.length
  | .obj fields => .ok fields.length
  | _ => .error .typeError

/-- Python iteration `for x in j`: elements of a list, keys of a dict,
characters of a string, `TypeError` otherwise. -/
def Json.pyIter (j : Json) : Except PyErr (List Json) :=
  match j with
  | .arr xs => .ok xs
  | .obj fields => .ok (fields.map (fun p => Json.str p.1))
  | .str s => .ok (s.toList.map (fun c => Json.str c.toString))
  | _ => .error .typeError

/-- A local HTTP response produced by a handler: a JSON body plus a status
code (the value of Flask `jsonify(body), code`). -/
inductive Response where
  | jsonResp (body : Json) (code : Nat) : Response

/-- The helper `render_error_response` of service.py. -/
def render_error_response (msg : String) (code : Nat) : Response :=
  Response.jsonResp (Json.obj [("error_msg", Json.str msg)]) code

/-- One outbound HTTP request issued through the shared session
(`session.request(method, uri, json=data, headers=headers, ...)`). -/
structure OutboundRequest where
  method : String
  uri : String
  json : Json
  headers : List (String × String)

/-- Python dict assignment `d[k] = v` on a string-to-string mapping modelled
as an insertion-ordered association list (keys are unique, as in a Python
dict): an existing key is overwritten in place, a new key is appended. -/
def setKey : List (String × String) → String → String → List (String × String)
  | [], k, v => [(k, v)]
  | p :: m, k, v => if p.1 == k then (k, v) :: m else p :: setKey m k v

/-- Lookup in a headers mapping (first occurrence of the key). -/
def lookupKey (m : List (String × String)) (k : String) : Option String :=
  (m.find? (fun p => p.1 == k)).map (fun p => p.2)

/-- The gateway client of gateway.py (the source spells the class name
`GatwayAPI`).  The shared transport session is modelled separately as the
`upstream` function supplied to each operation. -/
structure GatwayAPI where
  base_url : String
  token : String

/-- The method `make_request` of gateway.py: builds the URI from the base URL and path, then
sets the `Authorization` and `Content-Type` keys on the caller-supplied
headers dict IN PLACE (Python dicts are passed by reference).  The result is
the caller-visible headers mapping after the call together with the outbound
request handed to the transport. -/
def GatwayAPI.make_request (g : GatwayAPI) (method path : String)
    (headers : List (String × String)) (data : Json) :
    List (String × String) × OutboundRequest :=
  let uri := g.base_url ++ path
  let h1 := setKey headers "Authorization" ("macaroon root=" ++ g.token)
  let h2 := setKey h1 "Content-Type" "application/json"
  (h2, OutboundRequest.mk method uri data h2)

/-- The method `create_session` of gateway.py: POST `/1.0/sessions` with a Content-Type
header, returning the outbound request and the decoded JSON body of the
upstream response. -/
def GatwayAPI.create_session (g : GatwayAPI) (upstream : OutboundRequest → Json)
    (data : Json) : OutboundRequest × Json :=
  let r := g.make_request "POST" "/1.0/sessions"
    [("Content-Type", "application/json")] data
  (r.2, upstream r.2)

/-- The method `get_applications` of gateway.py: GET `/1.0/applications/` (empty headers,
empty dict body — the Python defaults), returning the outbound request and
the decoded JSON body of the upstream response. -/
def GatwayAPI.get_applications (g : GatwayAPI) (upstream : OutboundRequest → Json) :
    OutboundRequest × Json :=
  let r := g.make_request "GET" "/1.0/applications/" [] (Json.obj [])
  (r.2, upstream r.2)

/-- The name-collection loop of `api_1_0_games_get`: for each entry, skip it
when `'name' in app` is false, append `app['name']` otherwise; either test can
raise. -/
def extract_names : List Json → Except PyErr (List Json)
  | [] => .ok []
  | a :: rest =>
    match a.mem "name" with
    | .error e => .error e
    | .ok false => extract_names rest
    | .ok true =>
      match a.subscript "name" with
      | .error e => .error e
      | .ok v =>
        match extract_names rest with
        | .error e => .error e
        | .ok vs => .ok (v :: vs)

/-- Handler for POST `/1.0/sessions/` (service.py).  `request_json` is Flask
`request.json` (`none` when the body is absent or unparseable); `upstream`
maps the outbound request to the decoded JSON of the gateway response.  The
result pairs the list of outbound gateway calls with either a response or a
raised Python error. -/
def api_1_0_sessions_post (gateway_enabled : Bool) (gateway : GatwayAPI)
    (upstream : OutboundRequest → Json) (request_json : Option Json) :
    List OutboundRequest × Except PyErr Response :=
  if !gateway_enabled then
    ([], Except.ok (render_error_response "no gateway connected" 503))
  else
    let data := request_json.getD Json.null
    if !data.truthy then
      ([], Except.ok (render_error_response "invalid input" 400))
    else
      match data.mem "game" with
      | .error e => ([], Except.error e)
      | .ok hasGame =>
        if !hasGame then
          ([], Except.ok (render_error_response "invalid game selected" 400))
        else
          match data.subscript "game" with
          | .error e => ([], Except.error e)
          | .ok game =>
            match game.pyLen with
            | .error e => ([], Except.error e)
            | .ok n =>
              if n == 0 then
                ([], Except.ok (render_error_response "invalid game selected" 400))
              else
                let req := Json.obj [("app", game), ("joinable", Json.bool false),
                  ("screen", Json.obj [("width", Json.num 1280),
                    ("height", Json.num 720), ("fps", Json.num 60)])]
                let call := gateway.create_session upstream req
                let out := call.1
                let resp := call.2
                match resp.mem "status_code" with
                | .error e => ([out], Except.error e)
                | .ok hasSc =>
                  if !hasSc then
                    ([out], Except.ok (render_error_response "failed to create session" 500))
                  else
                    match resp.subscript "status_code" with
                    | .error e => ([out], Except.error e)
                    | .ok sc =>
                      if !(sc.eqNum 201) then
                        ([out], Except.ok (render_error_response "failed to create session" 500))
                      else
                        match resp.subscript "metadata" with
                        | .error e => ([out], Except.error e)
                        | .ok md => ([out], Except.ok (Response.jsonResp md 200))

/-- Handler for GET `/1.0/games` (service.py): status-code check first, then
metadata presence, then the name-collection loop. -/
def api_1_0_games_get (gateway_enabled : Bool) (gateway : GatwayAPI)
    (upstream : OutboundRequest → Json) :
    List OutboundRequest × Except PyErr Response :=
  if !gateway_enabled then
    ([], Except.ok (render_error_response "no gateway connected" 503))
  else
    let call := gateway.get_applications upstream
    let out := call.1
    let resp := call.2
    match resp.mem "status_code" with
    | .error e => ([out], Except.error e)
    | .ok hasSc =>
      if !hasSc then
        ([out], Except.ok (render_error_response "failed to communicate with gateway" 500))
      else
        match resp.subscript "status_code" with
        | .error e => ([out], Except.error e)
        | .ok sc =>
          if !(sc.eqNum 200) then
            ([out], Except.ok (render_error_response "failed to communicate with gateway" 500))
          else
            match resp.mem "metadata" with
            | .error e => ([out], Except.error e)
            | .ok hasMd =>
              if !hasMd then
                ([out], Except.ok (render_error_response "received invalid response from gateway" 500))
              else
                match resp.subscript "metadata" with
                | .error e => ([out], Except.error e)
                | .ok md =>
                  match md.pyIter with
                  | .error e => ([out], Except.error e)
                  | .ok items =>
                    match extract_names items with
                    | .error e => ([out], Except.error e)
                    | .ok names => ([out], Except.ok (Response.jsonResp (Json.arr names) 200))

/-- The `default` argument of `config.get`: either the sentinel class `Throw`
(no default supplied) or an explicit default value. -/
inductive DefaultArg where
  | Throw : DefaultArg
  | value (v : Json) : DefaultArg

/-- Lookup of a key in the loaded configuration mapping (first occurrence). -/
def Config.lookup (cfg : List (String × Json)) (key : String) : Option Json :=
  (cfg.find? (fun p => p.1 == key)).map (fun p => p.2)

/-- The function `get` of config.py: return the configured value when the key is
present; otherwise raise when no default was supplied, and return the default
otherwise. -/
def Config.get (cfg : List (String × Json)) (key : String) (default : DefaultArg) :
    Except String Json :=
  match cfg.find? (fun p => p.1 == key) with
  | some p => .ok p.2
  | none =>
    match default with
    | .Throw => .error ("Configuration option not present: " ++ key)
    | .value v => .ok v

/-- The module-level startup computation of service.py:
`gateway_api_url = config.get("gateway-url", None)`,
`gateway_api_token = config.get("gateway-token", None)`,
`gateway_enabled = bool(gateway_api_url and gateway_api_token)`.
An `Except` result exposes whether `config.get` raised. -/
def gateway_enabled (cfg : List (String × Json)) : Except String Bool :=
  match Config.get cfg "gateway-url" (DefaultArg.value Json.null) with
  | .error e => .error e
  | .ok u =>
    match Config.get cfg "gateway-token" (DefaultArg.value Json.null) with
    | .error e => .error e
    | .ok t => .ok (u.truthy && t.truthy)

/-- Modelled from the spec: the retry behaviour of the shared HTTP transport
configured in service.py (`Retry(total=3, backoff_factor=1,
method_whitelist=["HEAD", "GET", "OPTIONS"])`) is implemented by the urllib3
library, which is not part of this repository; only its configuration is.
A retry policy is its retry budget and the methods eligible for retry. -/
structure RetryPolicy where
  total : Nat
  allowed_methods : List String

/-- The retry policy service.py installs on the shared session. -/
def retry_strategy : RetryPolicy :=
  RetryPolicy.mk 3 ["HEAD", "GET", "OPTIONS"]

/-- Modelled from the spec: the outcome of one transport attempt — a
connection-level failure, or a response decoded as JSON. -/
inductive Attempt where
  | failure : Attempt
  | success (resp : Json) : Attempt

/-- Modelled from the spec: how many attempts the transport may make for a
method — one initial attempt, plus up to `total` retry attempts when the
method is in the allow-list, none otherwise. -/
def allowedAttempts (p : RetryPolicy) (method : String) : Nat :=
  1 + (if p.allowed_methods.contains method then p.total else 0)

/-- First successful attempt among `fuel` consecutive attempts starting at
index `start`, `none` when they all fail. -/
def firstSuccess (attempts : Nat → Attempt) (start : Nat) : Nat → Option Json
  | 0 => none
  | fuel + 1 =>
    match attempts start with
    | .success r => some r
    | .failure => firstSuccess attempts (start + 1) fuel

/-- Modelled from the spec: sending a request through the retrying transport.
`attempts i` is the outcome of the i-th transport attempt; the call returns
the first success within the policy's attempt budget for the method, and
fails once the budget is exhausted. -/
def transportSend (p : RetryPolicy) (method : String) (attempts : Nat → Attempt) :
    Option Json :=
  firstSuccess attempts 0 (allowedAttempts p method)

/-- Specification-side description of the game-list body (§4.3 step 4 of the
spec): the `name` values of the metadata entries in their original order,
skipping exactly the entries without a `name` field. -/
def namesOf (entries : List (List (String × Json))) : List Json :=
  entries.filterMap (fun fields => (fields.find? (fun p => p.1 == "name")).map (fun p => p.2))

/-- The upstream list-applications response whose metadata is the given list
of JSON objects. -/
def listResp (entries : List (List (String × Json))) : Json :=
  Json.obj [("status_code", Json.num 200), ("metadata", Json.arr (entries.map Json.obj))]

/-- A JSON value that Python `len` accepts (string, list or dict). -/
def Json.lengthy : Json → Bool
  | .str _ => true
  | .arr _ => true
  | .obj _ => true
  | _ => false

/-- Request bodies on which the create-session validation code cannot raise:
no body, a falsy body, or a JSON object whose `game` field (when present) has
a Python length. -/
def sessionBodyOk : Option Json → Bool
  | none => true
  | some (Json.obj fields) =>
    match fields.find? (fun p => p.1 == "game") with
    | none => true
    | some p => p.2.lengthy
  | some j => !j.truthy

/-- Decoded create-session responses on which the handler cannot raise: a
JSON object that carries a `metadata` field whenever its `status_code` field
is `201`. -/
def createRespOk : Json → Bool
  | Json.obj fields =>
    match fields.find? (fun p => p.1 == "status_code") with
    | none => true
    | some p =>
      if p.2.eqNum 201 then (fields.find? (fun q => q.1 == "metadata")).isSome
      else true
  | _ => false

/-- A metadata entry on which the name-collection loop cannot raise: a JSON
object, or a value whose `name`-membership test is false. -/
def elementOk (j : Json) : Bool :=
  match j with
  | Json.obj _ => true
  | _ =>
    match j.mem "name" with
    | .ok false => true
    | _ => false

/-- Decoded list-applications responses on which the handler cannot raise: a
JSON object that, whenever its `status_code` field is `200`, carries a
`metadata` field holding a list of loop-safe entries. -/
def listRespOk : Json → Bool
  | Json.obj fields =>
    match fields.find? (fun p => p.1 == "status_code") with
    | none => true
    | some p =>
      if p.2.eqNum 200 then
        match fields.find? (fun q => q.1 == "metadata") with
        | some q =>
          match q.2 with
          | Json.arr xs => xs.all elementOk
          | _ => false
        | none => false
      else true
  | _ => false

theorem lookupKey_cons (p : String × String) (m : List (String × String)) (k : String) :
    lookupKey (p :: m) k = if p.1 = k then some p.2 else lookupKey m k := by
  by_cases h : p.1 = k <;> simp [lookupKey, h]

theorem lookupKey_setKey (m : List (String × String)) (k v k' : String) :
    lookupKey (setKey m k v) k' = if k' = k then some v else lookupKey m k' := by
  induction m with
  | nil =>
    by_cases h : k' = k
    · simp [setKey, lookupKey, h]
    · simp [setKey, lookupKey, h, Ne.symm h]
  | cons p m ih =>
    by_cases hp : p.1 = k
    · rw [setKey, if_pos (by simp [hp]), lookupKey_cons, lookupKey_cons]
      by_cases h : k' = k
      · simp [h]
      · simp [h, Ne.symm h, hp]
    · rw [setKey, if_neg (by simp [hp]), lookupKey_cons, lookupKey_cons, ih]
      by_cases hh : p.1 = k' <;> by_cases h : k' = k <;> simp_all

theorem firstSuccess_zero (a : Nat → Attempt) (s : Nat) : firstSuccess a s 0 = none := rfl

theorem firstSuccess_succ (a : Nat → Attempt) (s fuel : Nat) :
    firstSuccess a s (fuel + 1)
      = match a s with
        | .success r => some r
        | .failure => firstSuccess a (s + 1) fuel := rfl

/-- Claim C9: the outbound transport retries a failed request at most 3 times
(at most 4 attempts in total), and only when the method is HEAD, GET or
OPTIONS; a POST is never retried, while a GET whose transport fails twice and
succeeds on the third attempt still yields the successful response. -/
theorem retry_policy_behavior (attempts : Nat → Attempt) (r : Json) (m : String) :
    (attempts 0 = Attempt.failure → attempts 1 = Attempt.failure →
      attempts 2 = Attempt.success r →
      transportSend retry_strategy "GET" attempts = some r)
    ∧ ((∀ i, i < 4 → attempts i = Attempt.failure) →
      transportSend retry_strategy "GET" attempts = none)
    ∧ (retry_strategy.allowed_methods.contains m = false →
      transportSend retry_strategy m attempts
        = match attempts 0 with
          | Attempt.success resp => some resp
          | Attempt.failure => none)
    ∧ (attempts 0 = Attempt.failure →
      transportSend retry_strategy "POST" attempts = none) := by
  refine ⟨?_, ?_, ?_, ?_⟩
  · intro h0 h1 h2
    show firstSuccess attempts 0 4 = some r
    simp only [firstSuccess_succ, h0, h1, h2]
  · intro h
    show firstSuccess attempts 0 4 = none
    simp [firstSuccess_succ, firstSuccess_zero, h]
  · intro hm
    unfold transportSend allowedAttempts
    rw [hm]
    simp only [Bool.false_eq_true, if_false, Nat.add_zero]
    cases a0 : attempts 0 <;> simp [firstSuccess_succ, firstSuccess_zero, a0]
  · intro h0
    show firstSuccess attempts 0 1 = none
    simp only [firstSuccess_succ, h0, firstSuccess_zero]

theorem retry_policy_behavior_witness :
    transportSend retry_strategy "GET"
      (fun i => if i < 2 then Attempt.failure else Attempt.success (Json.str "ok"))
      = some (Json.str "ok")
    ∧ transportSend retry_strategy "POST" (fun _ => Attempt.failure) = none :=
  ⟨(retry_policy_behavior
      (fun i => if i < 2 then Attempt.failure else Attempt.success (Json.str "ok"))
      (Json.str "ok") "POST").1 rfl rfl rfl,
   (retry_policy_behavior (fun _ => Attempt.failure) (Json.str "ok") "POST").2.2.2 rfl⟩

/-- Claim C8 counterexample: `make_request` is NOT free of caller-visible
state changes — the caller-supplied headers mapping passed by
`create_session` is mutated in place by the call. -/
theorem make_request_mutates_headers :
    ((GatwayAPI.mk "http://gateway" "secret").make_request "POST" "/1.0/sessions"
      [("Content-Type", "application/json")] (Json.obj [])).1
      ≠ [("Content-Type", "application/json")] := by
  decide

/-- Claim C8 amended: a call to `make_request` issues exactly one outbound
request and leaves the gateway client object unchanged, but it updates the
caller-supplied headers mapping in place: the `Authorization` and
`Content-Type` keys are set/overwritten, and every other key is unchanged. -/
theorem make_request_frame (g : GatwayAPI) (method path : String)
    (headers : List (String × String)) (data : Json) (k : String)
    (hA : k ≠ "Authorization") (hC : k ≠ "Content-Type") :
    lookupKey (g.make_request method path headers data).1 "Authorization"
        = some ("macaroon root=" ++ g.token)
    ∧ lookupKey (g.make_request method path headers data).1 "Content-Type"
        = some "application/json"
    ∧ lookupKey (g.make_request method path headers data).1 k = lookupKey headers k
    ∧ (g.make_request method path headers data).2
        = OutboundRequest.mk method (g.base_url ++ path) data
            (g.make_request method path headers data).1 := by
  unfold GatwayAPI.make_request
  simp only [lookupKey_setKey]
  refine ⟨?_, ?_, ?_, trivial⟩ <;> simp [hA, hC]

theorem make_request_frame_witness :
    lookupKey ((GatwayAPI.mk "http://gw" "tok").make_request "GET" "/p"
        [("X-Other", "1")] Json.null).1 "Authorization" = some ("macaroon root=" ++ "tok")
    ∧ lookupKey ((GatwayAPI.mk "http://gw" "tok").make_request "GET" "/p"
        [("X-Other", "1")] Json.null).1 "Content-Type" = some "application/json"
    ∧ lookupKey ((GatwayAPI.mk "http://gw" "tok").make_request "GET" "/p"
        [("X-Other", "1")] Json.null).1 "X-Other" = lookupKey [("X-Other", "1")] "X-Other"
    ∧ ((GatwayAPI.mk "http://gw" "tok").make_request "GET" "/p"
        [("X-Other", "1")] Json.null).2
        = OutboundRequest.mk "GET" ((GatwayAPI.mk "http://gw" "tok").base_url ++ "/p") Json.null
            ((GatwayAPI.mk "http://gw" "tok").make_request "GET" "/p"
              [("X-Other", "1")] Json.null).1 :=
  make_request_frame (GatwayAPI.mk "http://gw" "tok") "GET" "/p"
    [("X-Other", "1")] Json.null "X-Other" (by decide) (by decide)

theorem gateway_enabled_eq (cfg : List (String × Json)) :
    gateway_enabled cfg
      = Except.ok (((Config.lookup cfg "gateway-url").getD Json.null).truthy
          && ((Config.lookup cfg "gateway-token").getD Json.null).truthy) := by
  unfold gateway_enabled Config.get Config.lookup
  cases cfg.find? (fun p => p.1 == "gateway-url") <;>
    cases cfg.find? (fun p => p.1 == "gateway-token") <;> simp

/-- Claim C10: `config.get(key, default)` returns the configured value when
the key is present, returns the default when the key is absent and a default
is supplied, and raises exactly when the key is absent and no default is
given; the service looks both gateway keys up with default `None`, so startup
never takes the raising branch and absent keys make `gateway_enabled` false
instead of crashing. -/
theorem config_get_contract (cfg : List (String × Json)) (key : String) (v d : Json) :
    (Config.lookup cfg key = some v →
      Config.get cfg key (DefaultArg.value d) = Except.ok v
        ∧ Config.get cfg key DefaultArg.Throw = Except.ok v)
    ∧ (Config.lookup cfg key = none →
      Config.get cfg key (DefaultArg.value d) = Except.ok d
        ∧ ∃ msg, Config.get cfg key DefaultArg.Throw = Except.error msg)
    ∧ (∃ b, gateway_enabled cfg = Except.ok b)
    ∧ (Config.lookup cfg "gateway-url" = none → Config.lookup cfg "gateway-token" = none →
      gateway_enabled cfg = Except.ok false) := by
  refine ⟨?_, ?_, ?_, ?_⟩
  · intro h
    unfold Config.lookup at h
    cases hf : cfg.find? (fun p => p.1 == key) <;> simp [hf] at h
    simp [Config.get, hf, h]
  · intro h
    unfold Config.lookup at h
    cases hf : cfg.find? (fun p => p.1 == key) <;> simp [hf] at h ⊢
    simp [Config.get, hf]
  · exact ⟨_, gateway_enabled_eq cfg⟩
  · intro hu ht
    rw [gateway_enabled_eq, hu, ht]
    simp [Json.truthy]

/-- Claim C1: when the configured gateway base URL or token is absent or
empty, `gateway_enabled` is false, and with the gateway disabled both
handlers respond 503 with an `error_msg` body of "no gateway connected"
and perform no outbound gateway call (their call list is empty). -/
theorem gateway_disabled_short_circuit (cfg : List (String × Json)) (g : GatwayAPI)
    (upstream : OutboundRequest → Json) (request_json : Option Json) :
    ((Config.lookup cfg "gateway-url" = none
        ∨ Config.lookup cfg "gateway-url" = some (Json.str "")
        ∨ Config.lookup cfg "gateway-token" = none
        ∨ Config.lookup cfg "gateway-token" = some (Json.str ""))
      → gateway_enabled cfg = Except.ok false)
    ∧ api_1_0_sessions_post false g upstream request_json
        = ([], Except.ok (render_error_response "no gateway connected" 503))
    ∧ api_1_0_games_get false g upstream
        = ([], Except.ok (render_error_response "no gateway connected" 503)) := by
  refine ⟨?_, rfl, rfl⟩
  intro h
  rw [gateway_enabled_eq]
  rcases h with h | h | h | h <;> simp [h, Json.truthy]

theorem config_get_contract_witness :
    (Config.get [("gateway-url", Json.str "http://gw")] "gateway-url"
        (DefaultArg.value Json.null) = Except.ok (Json.str "http://gw")
      ∧ Config.get [("gateway-url", Json.str "http://gw")] "gateway-url"
        DefaultArg.Throw = Except.ok (Json.str "http://gw"))
    ∧ (Config.get [("gateway-url", Json.str "http://gw")] "gateway-token"
        (DefaultArg.value Json.null) = Except.ok Json.null
      ∧ ∃ msg, Config.get [("gateway-url", Json.str "http://gw")] "gateway-token"
        DefaultArg.Throw = Except.error msg) :=
  ⟨(config_get_contract [("gateway-url", Json.str "http://gw")] "gateway-url"
      (Json.str "http://gw") Json.null).1 rfl,
   (config_get_contract [("gateway-url", Json.str "http://gw")] "gateway-token"
      (Json.str "http://gw") Json.null).2.1 rfl⟩

theorem gateway_disabled_short_circuit_witness :
    gateway_enabled [("gateway-url", Json.str "http://gw")] = Except.ok false
    ∧ api_1_0_sessions_post false (GatwayAPI.mk "http://gw" "tok") (fun _ => Json.null)
        (some (Json.obj [("game", Json.str "pong")]))
        = ([], Except.ok (render_error_response "no gateway connected" 503))
    ∧ api_1_0_games_get false (GatwayAPI.mk "http://gw" "tok") (fun _ => Json.null)
        = ([], Except.ok (render_error_response "no gateway connected" 503)) :=
  ⟨(gateway_disabled_short_circuit [("gateway-url", Json.str "http://gw")]
      (GatwayAPI.mk "http://gw" "tok") (fun _ => Json.null)
      (some (Json.obj [("game", Json.str "pong")]))).1 (Or.inr (Or.inr (Or.inl rfl))),
   (gateway_disabled_short_circuit [("gateway-url", Json.str "http://gw")]
      (GatwayAPI.mk "http://gw" "tok") (fun _ => Json.null)
      (some (Json.obj [("game", Json.str "pong")]))).2.1,
   (gateway_disabled_short_circuit [("gateway-url", Json.str "http://gw")]
      (GatwayAPI.mk "http://gw" "tok") (fun _ => Json.null)
      (some (Json.obj [("game", Json.str "pong")]))).2.2⟩

/-- Claim C3 counterexample: for a body whose `game` field is the number 5 —
so not a non-empty string — the handler does not respond 400
"invalid game selected": `len(data["game"])` raises a `TypeError`. -/
theorem session_validation_counterexample :
    (api_1_0_sessions_post true (GatwayAPI.mk "http://gw" "tok") (fun _ => Json.null)
        (some (Json.obj [("game", Json.num 5)]))).2 = Except.error PyErr.typeError
    ∧ (api_1_0_sessions_post true (GatwayAPI.mk "http://gw" "tok") (fun _ => Json.null)
        (some (Json.obj [("game", Json.num 5)]))).1 = []
    ∧ (api_1_0_sessions_post true (GatwayAPI.mk "http://gw" "tok") (fun _ => Json.null)
        (some (Json.obj [("game", Json.num 5)]))).2
        ≠ Except.ok (render_error_response "invalid game selected" 400) :=
  ⟨rfl, rfl, fun h => Except.noConfusion h⟩

/-- Claim C7 counterexample: the handlers do not always terminate with a JSON
body — a create-session response with `status_code` 201 but no `metadata`
makes `resp["metadata"]` raise a `KeyError`, and a list response with
`status_code` 200 whose `metadata` is a number makes the iteration raise a
`TypeError`. -/
theorem handlers_exception_counterexample :
    (api_1_0_sessions_post true (GatwayAPI.mk "http://gw" "tok")
        (fun _ => Json.obj [("status_code", Json.num 201)])
        (some (Json.obj [("game", Json.str "pong")]))).2
      = Except.error (PyErr.keyError "metadata")
    ∧ (api_1_0_games_get true (GatwayAPI.mk "http://gw" "tok")
        (fun _ => Json.obj [("status_code", Json.num 200), ("metadata", Json.num 5)])).2
      = Except.error PyErr.typeError :=
  ⟨rfl, rfl⟩

/-- Claim C4: for a POST `/1.0/sessions/` request that reaches the gateway
call, if the decoded upstream response (a JSON object, the GatewayResponse
shape of the spec) lacks a `status_code` field or its value is not 201, the
handler responds 500 with "failed to create session". -/
theorem session_upstream_failure_mapping (g : GatwayAPI) (fields : List (String × Json))
    (game : String) (hgame : game.length ≠ 0)
    (hsc : ∀ p, fields.find? (fun q => q.1 == "status_code") = some p → p.2.eqNum 201 = false) :
    (api_1_0_sessions_post true g (fun _ => Json.obj fields)
        (some (Json.obj [("game", Json.str game)]))).2
      = Except.ok (render_error_response "failed to create session" 500) := by
  cases hf : fields.find? (fun q => q.1 == "status_code") with
  | none =>
    simp [api_1_0_sessions_post, Json.truthy, Json.mem, Json.subscript, Json.pyLen,
      GatwayAPI.create_session, GatwayAPI.make_request, hf, hgame]
  | some p =>
    have hne := hsc p hf
    simp [api_1_0_sessions_post, Json.truthy, Json.mem, Json.subscript, Json.pyLen,
      GatwayAPI.create_session, GatwayAPI.make_request, hf, hgame, hne]

theorem session_upstream_failure_mapping_witness :
    (api_1_0_sessions_post true (GatwayAPI.mk "http://gw" "tok")
        (fun _ => Json.obj [("status_code", Json.num 500)])
        (some (Json.obj [("game", Json.str "pong")]))).2
      = Except.ok (render_error_response "failed to create session" 500) :=
  session_upstream_failure_mapping (GatwayAPI.mk "http://gw" "tok")
    [("status_code", Json.num 500)] "pong" (by decide)
    (fun p hp => by simp at hp; rw [← hp]; rfl)

/-- Claim C5: for a GET `/1.0/games` request whose decoded upstream response
(a JSON object, the GatewayResponse shape of the spec) lacks `status_code` or
has it different from 200, the response is 500 "failed to communicate with
gateway" regardless of `metadata`; when `status_code` is 200 and `metadata`
is absent, the response is 500 "received invalid response from gateway" — so
the status check precedes the metadata check. -/
theorem games_upstream_failure_mapping (g : GatwayAPI) (fields : List (String × Json)) :
    ((∀ p, fields.find? (fun q => q.1 == "status_code") = some p → p.2.eqNum 200 = false) →
      (api_1_0_games_get true g (fun _ => Json.obj fields)).2
        = Except.ok (render_error_response "failed to communicate with gateway" 500))
    ∧ (∀ p, fields.find? (fun q => q.1 == "status_code") = some p → p.2.eqNum 200 = true →
      fields.find? (fun q => q.1 == "metadata") = none →
      (api_1_0_games_get true g (fun _ => Json.obj fields)).2
        = Except.ok (render_error_response "received invalid response from gateway" 500)) := by
  constructor
  · intro hsc
    cases hf : fields.find? (fun q => q.1 == "status_code") with
    | none =>
      simp [api_1_0_games_get, Json.mem, Json.subscript,
        GatwayAPI.get_applications, GatwayAPI.make_request, hf]
    | some p =>
      have hne := hsc p hf
      simp [api_1_0_games_get, Json.mem, Json.subscript,
        GatwayAPI.get_applications, GatwayAPI.make_request, hf, hne]
  · intro p hf hsc hmd
    simp [api_1_0_games_get, Json.mem, Json.subscript,
      GatwayAPI.get_applications, GatwayAPI.make_request, hf, hsc, hmd]

theorem games_upstream_failure_mapping_witness :
    (api_1_0_games_get true (GatwayAPI.mk "http://gw" "tok")
        (fun _ => Json.obj [("status_code", Json.num 500), ("metadata", Json.arr [])])).2
      = Except.ok (render_error_response "failed to communicate with gateway" 500)
    ∧ (api_1_0_games_get true (GatwayAPI.mk "http://gw" "tok")
        (fun _ => Json.obj [("status_code", Json.num 200)])).2
      = Except.ok (render_error_response "received invalid response from gateway" 500) :=
  ⟨(games_upstream_failure_mapping (GatwayAPI.mk "http://gw" "tok")
      [("status_code", Json.num 500), ("metadata", Json.arr [])]).1
      (fun p hp => by simp at hp; rw [← hp]; rfl),
   (games_upstream_failure_mapping (GatwayAPI.mk "http://gw" "tok")
      [("status_code", Json.num 200)]).2
      ("status_code", Json.num 200) rfl rfl rfl⟩

theorem extract_names_map_obj (entries : List (List (String × Json))) :
    extract_names (entries.map Json.obj) = Except.ok (namesOf entries) := by
  induction entries with
  | nil => rfl
  | cons fields rest ih =>
    cases hf : fields.find? (fun p => p.1 == "name") with
    | none => simp [extract_names, Json.mem, Json.subscript, namesOf, hf, ih]
    | some p => simp [extract_names, Json.mem, Json.subscript, namesOf, hf, ih]

/-- Claim C6: when the upstream response is `status_code` 200 with `metadata`
a list of objects, the response is 200 with exactly the `name` values of the
entries in their original order, skipping precisely the entries without a
`name` field, with no deduplication. -/
theorem games_name_extraction (g : GatwayAPI) (entries : List (List (String × Json))) :
    api_1_0_games_get true g (fun _ => listResp entries)
      = ([OutboundRequest.mk "GET" (g.base_url ++ "/1.0/applications/") (Json.obj [])
            [("Authorization", "macaroon root=" ++ g.token),
             ("Content-Type", "application/json")]],
         Except.ok (Response.jsonResp (Json.arr (namesOf entries)) 200)) := by
  simp [api_1_0_games_get, GatwayAPI.get_applications, GatwayAPI.make_request, listResp,
    Json.mem, Json.subscript, Json.pyIter, Json.eqNum, setKey, extract_names_map_obj]

/-- Claim C2: with the gateway enabled and a body whose `game` field is a
non-empty string, the handler sends exactly one outbound POST to the base URL
plus `/1.0/sessions` carrying the `Authorization: macaroon root=<token>`
header and the JSON body with `app`, `joinable` false and the fixed 1280 by
720 at 60 fps screen; and when the decoded upstream response is
`status_code` 201 with metadata `m`, the local response is 200 with body
exactly `m`. -/
theorem session_create_happy_path (g : GatwayAPI) (upstream : OutboundRequest → Json)
    (game : String) (m : Json) (hgame : game.length ≠ 0)
    (hup : upstream (OutboundRequest.mk "POST" (g.base_url ++ "/1.0/sessions")
        (Json.obj [("app", Json.str game), ("joinable", Json.bool false),
          ("screen", Json.obj [("width", Json.num 1280), ("height", Json.num 720),
            ("fps", Json.num 60)])])
        [("Content-Type", "application/json"),
         ("Authorization", "macaroon root=" ++ g.token)])
      = Json.obj [("status_code", Json.num 201), ("metadata", m)]) :
    api_1_0_sessions_post true g upstream (some (Json.obj [("game", Json.str game)]))
      = ([OutboundRequest.mk "POST" (g.base_url ++ "/1.0/sessions")
            (Json.obj [("app", Json.str game), ("joinable", Json.bool false),
              ("screen", Json.obj [("width", Json.num 1280), ("height", Json.num 720),
                ("fps", Json.num 60)])])
            [("Content-Type", "application/json"),
             ("Authorization", "macaroon root=" ++ g.token)]],
         Except.ok (Response.jsonResp m 200)) := by
  simp [api_1_0_sessions_post, GatwayAPI.create_session, GatwayAPI.make_request,
    Json.truthy, Json.mem, Json.subscript, Json.pyLen, Json.eqNum, setKey, hgame, hup]

theorem session_create_happy_path_witness :
    api_1_0_sessions_post true (GatwayAPI.mk "http://gw" "tok")
      (fun _ => Json.obj [("status_code", Json.num 201),
        ("metadata", Json.obj [("id", Json.str "abc")])])
      (some (Json.obj [("game", Json.str "pong")]))
      = ([OutboundRequest.mk "POST" ((GatwayAPI.mk "http://gw" "tok").base_url ++ "/1.0/sessions")
            (Json.obj [("app", Json.str "pong"), ("joinable", Json.bool false),
              ("screen", Json.obj [("width", Json.num 1280), ("height", Json.num 720),
                ("fps", Json.num 60)])])
            [("Content-Type", "application/json"),
             ("Authorization", "macaroon root=" ++ (GatwayAPI.mk "http://gw" "tok").token)]],
         Except.ok (Response.jsonResp (Json.obj [("id", Json.str "abc")]) 200)) :=
  session_create_happy_path (GatwayAPI.mk "http://gw" "tok")
    (fun _ => Json.obj [("status_code", Json.num 201),
      ("metadata", Json.obj [("id", Json.str "abc")])])
    "pong" (Json.obj [("id", Json.str "abc")]) (by decide) rfl

/-- Claim C3 amended: with the gateway enabled, an absent or falsy parsed
body (including the empty object) yields 400 "invalid input"; a non-empty JSON-object
body lacking `game`, or whose first `game` entry has Python length 0, yields
400 "invalid game selected"; but a `game` value without a length (number,
boolean, null) raises a `TypeError` instead of yielding 400. In all these
cases no outbound gateway call is made. -/
theorem session_input_validation (g : GatwayAPI) (upstream : OutboundRequest → Json)
    (rj : Option Json) (fields : List (String × Json)) :
    ((rj = none ∨ ∃ j, rj = some j ∧ j.truthy = false) →
      api_1_0_sessions_post true g upstream rj
        = ([], Except.ok (render_error_response "invalid input" 400)))
    ∧ (fields ≠ [] → fields.find? (fun p => p.1 == "game") = none →
      api_1_0_sessions_post true g upstream (some (Json.obj fields))
        = ([], Except.ok (render_error_response "invalid game selected" 400)))
    ∧ (∀ p, fields.find? (fun p => p.1 == "game") = some p → p.2.pyLen = Except.ok 0 →
      api_1_0_sessions_post true g upstream (some (Json.obj fields))
        = ([], Except.ok (render_error_response "invalid game selected" 400)))
    ∧ (∀ p, fields.find? (fun p => p.1 == "game") = some p →
      p.2.pyLen = Except.error PyErr.typeError →
      api_1_0_sessions_post true g upstream (some (Json.obj fields))
        = ([], Except.error PyErr.typeError)) := by
  refine ⟨?_, ?_, ?_, ?_⟩
  · rintro (h | ⟨j, hj, htr⟩)
    · simp [h, api_1_0_sessions_post, Json.truthy]
    · simp [hj, api_1_0_sessions_post, htr]
  · intro hne hf
    have hemp : fields.isEmpty = false := by
      cases fields with
      | nil => exact absurd rfl hne
      | cons a l => rfl
    simp [api_1_0_sessions_post, Json.truthy, Json.mem, hemp, hf]
  · intro p hf hlen
    have hemp : fields.isEmpty = false := by
      cases fields with
      | nil => simp at hf
      | cons a l => rfl
    simp [api_1_0_sessions_post, Json.truthy, Json.mem, Json.subscript, hemp, hf, hlen]
  · intro p hf hlen
    have hemp : fields.isEmpty = false := by
      cases fields with
      | nil => simp at hf
      | cons a l => rfl
    simp [api_1_0_sessions_post, Json.truthy, Json.mem, Json.subscript, hemp, hf, hlen]

theorem session_input_validation_witness :
    api_1_0_sessions_post true (GatwayAPI.mk "http://gw" "tok") (fun _ => Json.null)
        (some (Json.obj []))
      = ([], Except.ok (render_error_response "invalid input" 400))
    ∧ api_1_0_sessions_post true (GatwayAPI.mk "http://gw" "tok") (fun _ => Json.null)
        (some (Json.obj [("x", Json.num 1)]))
      = ([], Except.ok (render_error_response "invalid game selected" 400))
    ∧ api_1_0_sessions_post true (GatwayAPI.mk "http://gw" "tok") (fun _ => Json.null)
        (some (Json.obj [("game", Json.str "")]))
      = ([], Except.ok (render_error_response "invalid game selected" 400))
    ∧ api_1_0_sessions_post true (GatwayAPI.mk "http://gw" "tok") (fun _ => Json.null)
        (some (Json.obj [("game", Json.null)]))
      = ([], Except.error PyErr.typeError) :=
  ⟨(session_input_validation (GatwayAPI.mk "http://gw" "tok") (fun _ => Json.null)
      (some (Json.obj [])) []).1 (Or.inr ⟨Json.obj [], rfl, rfl⟩),
   (session_input_validation (GatwayAPI.mk "http://gw" "tok") (fun _ => Json.null)
      none [("x", Json.num 1)]).2.1 (by simp) rfl,
   (session_input_validation (GatwayAPI.mk "http://gw" "tok") (fun _ => Json.null)
      none [("game", Json.str "")]).2.2.1 ("game", Json.str "") rfl rfl,
   (session_input_validation (GatwayAPI.mk "http://gw" "tok") (fun _ => Json.null)
      none [("game", Json.null)]).2.2.2 ("game", Json.null) rfl rfl⟩

theorem extract_names_ok (xs : List Json) (h : xs.all elementOk = true) :
    ∃ names, extract_names xs = Except.ok names := by
  induction xs with
  | nil => exact ⟨[], rfl⟩
  | cons a rest ih =>
    simp only [List.all_cons, Bool.and_eq_true] at h
    obtain ⟨ha, hrest⟩ := h
    obtain ⟨ns, hns⟩ := ih hrest
    cases hm : a.mem "name" with
    | error e =>
      exfalso
      cases a <;> simp [Json.mem] at hm <;> simp [elementOk, Json.mem] at ha
    | ok b =>
      cases b with
      | false => exact ⟨ns, by simp [extract_names, hm, hns]⟩
      | true =>
        cases a with
        | obj fields =>
          simp only [Json.mem, Except.ok.injEq] at hm
          obtain ⟨p, hp⟩ := Option.isSome_iff_exists.mp hm
          exact ⟨p.2 :: ns, by simp [extract_names, Json.mem, Json.subscript, hm, hp, hns]⟩
        | null => exfalso; simp [Json.mem] at hm
        | bool bb => exfalso; simp [Json.mem] at hm
        | num n => exfalso; simp [Json.mem] at hm
        | str s => exfalso; simp [elementOk, hm] at ha
        | arr ys => exfalso; simp [elementOk, hm] at ha

theorem sessions_post_total (g : GatwayAPI) (rj : Option Json) (r1 : Json)
    (hb : sessionBodyOk rj = true) (h1 : createRespOk r1 = true) :
    ∃ resp, (api_1_0_sessions_post true g (fun _ => r1) rj).2 = Except.ok resp := by
  cases rj with
  | none => exact ⟨_, rfl⟩
  | some j =>
    cases j with
    | null => exact ⟨_, rfl⟩
    | bool b =>
      have ht : Json.truthy (Json.bool b) = false := by simpa [sessionBodyOk] using hb
      refine ⟨render_error_response "invalid input" 400, ?_⟩
      simp [api_1_0_sessions_post, ht]
    | num n =>
      have ht : Json.truthy (Json.num n) = false := by simpa [sessionBodyOk] using hb
      refine ⟨render_error_response "invalid input" 400, ?_⟩
      simp [api_1_0_sessions_post, ht]
    | str s =>
      have ht : Json.truthy (Json.str s) = false := by simpa [sessionBodyOk] using hb
      refine ⟨render_error_response "invalid input" 400, ?_⟩
      simp [api_1_0_sessions_post, ht]
    | arr xs =>
      have ht : Json.truthy (Json.arr xs) = false := by simpa [sessionBodyOk] using hb
      refine ⟨render_error_response "invalid input" 400, ?_⟩
      simp [api_1_0_sessions_post, ht]
    | obj fields =>
      by_cases hemp : fields.isEmpty = true
      · have ht : Json.truthy (Json.obj fields) = false := by simp [Json.truthy, hemp]
        refine ⟨render_error_response "invalid input" 400, ?_⟩
        simp [api_1_0_sessions_post, ht]
      · have hemp' : fields.isEmpty = false := by simpa using hemp
        cases hf : fields.find? (fun p => p.1 == "game") with
        | none =>
          refine ⟨render_error_response "invalid game selected" 400, ?_⟩
          simp [api_1_0_sessions_post, Json.truthy, Json.mem, hemp', hf]
        | some p =>
          have hlen : p.2.lengthy = true := by simpa [sessionBodyOk, hf] using hb
          obtain ⟨n, hn⟩ : ∃ n, p.2.pyLen = Except.ok n := by
            cases hp2 : p.2 with
            | str s => exact ⟨s.length, by simp [Json.pyLen]⟩
            | arr xs => exact ⟨xs.length, by simp [Json.pyLen]⟩
            | obj fs => exact ⟨fs.length, by simp [Json.pyLen]⟩
            | null => exact absurd hlen (by simp [hp2, Json.lengthy])
            | bool b => exact absurd hlen (by simp [hp2, Json.lengthy])
            | num m => exact absurd hlen (by simp [hp2, Json.lengthy])
          by_cases hz : n = 0
          · refine ⟨render_error_response "invalid game selected" 400, ?_⟩
            simp [api_1_0_sessions_post, Json.truthy, Json.mem, Json.subscript,
              hemp', hf, hn, hz]
          · cases r1 with
            | obj f1 =>
              cases hsc : f1.find? (fun q => q.1 == "status_code") with
              | none =>
                refine ⟨render_error_response "failed to create session" 500, ?_⟩
                simp [api_1_0_sessions_post, Json.truthy, Json.mem, Json.subscript,
                  GatwayAPI.create_session, GatwayAPI.make_request, hemp', hf, hn, hz, hsc]
              | some q =>
                by_cases h201 : q.2.eqNum 201 = true
                · have hmd : (f1.find? (fun q => q.1 == "metadata")).isSome = true := by
                    simpa [createRespOk, hsc, h201] using h1
                  obtain ⟨pm, hpm⟩ := Option.isSome_iff_exists.mp hmd
                  refine ⟨Response.jsonResp pm.2 200, ?_⟩
                  simp [api_1_0_sessions_post, Json.truthy, Json.mem, Json.subscript,
                    GatwayAPI.create_session, GatwayAPI.make_request, hemp', hf, hn, hz,
                    hsc, h201, hpm]
                · have h201' : q.2.eqNum 201 = false := by simpa using h201
                  refine ⟨render_error_response "failed to create session" 500, ?_⟩
                  simp [api_1_0_sessions_post, Json.truthy, Json.mem, Json.subscript,
                    GatwayAPI.create_session, GatwayAPI.make_request, hemp', hf, hn, hz,
                    hsc, h201']
            | null => exact absurd h1 (by simp [createRespOk])
            | bool b => exact absurd h1 (by simp [createRespOk])
            | num m => exact absurd h1 (by simp [createRespOk])
            | str s => exact absurd h1 (by simp [createRespOk])
            | arr ys => exact absurd h1 (by simp [createRespOk])

theorem games_get_total (g : GatwayAPI) (r2 : Json) (h2 : listRespOk r2 = true) :
    ∃ resp, (api_1_0_games_get true g (fun _ => r2)).2 = Except.ok resp := by
  cases r2 with
  | obj f2 =>
    cases hsc : f2.find? (fun q => q.1 == "status_code") with
    | none =>
      refine ⟨render_error_response "failed to communicate with gateway" 500, ?_⟩
      simp [api_1_0_games_get, GatwayAPI.get_applications, GatwayAPI.make_request,
        Json.mem, Json.subscript, hsc]
    | some q =>
      by_cases h200 : q.2.eqNum 200 = true
      · cases hmd : f2.find? (fun q => q.1 == "metadata") with
        | none => exact absurd h2 (by simp [listRespOk, hsc, h200, hmd])
        | some q2 =>
          cases hq2 : q2.2 with
          | arr xs =>
            have hall : xs.all elementOk = true := by
              simpa [listRespOk, hsc, h200, hmd, hq2] using h2
            obtain ⟨ns, hns⟩ := extract_names_ok xs hall
            refine ⟨Response.jsonResp (Json.arr ns) 200, ?_⟩
            simp [api_1_0_games_get, GatwayAPI.get_applications, GatwayAPI.make_request,
              Json.mem, Json.subscript, Json.pyIter, hsc, h200, hmd, hq2, hns]
          | null => exact absurd h2 (by simp [listRespOk, hsc, h200, hmd, hq2])
          | bool b => exact absurd h2 (by simp [listRespOk, hsc, h200, hmd, hq2])
          | num n => exact absurd h2 (by simp [listRespOk, hsc, h200, hmd, hq2])
          | str s => exact absurd h2 (by simp [listRespOk, hsc, h200, hmd, hq2])
          | obj fs => exact absurd h2 (by simp [listRespOk, hsc, h200, hmd, hq2])
      · have h200' : q.2.eqNum 200 = false := by simpa using h200
        refine ⟨render_error_response "failed to communicate with gateway" 500, ?_⟩
        simp [api_1_0_games_get, GatwayAPI.get_applications, GatwayAPI.make_request,
          Json.mem, Json.subscript, hsc, h200']
  | null => exact absurd h2 (by simp [listRespOk])
  | bool b => exact absurd h2 (by simp [listRespOk])
  | num n => exact absurd h2 (by simp [listRespOk])
  | str s => exact absurd h2 (by simp [listRespOk])
  | arr ys => exact absurd h2 (by simp [listRespOk])

/-- Claim C7 amended: the handlers terminate normally with a JSON body and a
status code whenever the inputs are well-shaped: the request body, if a
truthy value, is an object whose `game` field (when present) has a Python
length; the create-session response is an object carrying `metadata` whenever
its `status_code` is 201; and the list response is an object that, when its
`status_code` is 200, carries a `metadata` list whose entries are safe for
the name loop. Outside these bounds the handler can raise (see the
counterexample). -/
theorem handlers_total_on_wellformed (enabled : Bool) (g : GatwayAPI)
    (rj : Option Json) (r1 r2 : Json)
    (hb : sessionBodyOk rj = true) (h1 : createRespOk r1 = true)
    (h2 : listRespOk r2 = true) :
    (∃ resp, (api_1_0_sessions_post enabled g (fun _ => r1) rj).2 = Except.ok resp)
    ∧ (∃ resp, (api_1_0_games_get enabled g (fun _ => r2)).2 = Except.ok resp) := by
  cases enabled with
  | false => exact ⟨⟨_, rfl⟩, ⟨_, rfl⟩⟩
  | true => exact ⟨sessions_post_total g rj r1 hb h1, games_get_total g r2 h2⟩

theorem handlers_total_on_wellformed_witness :
    (∃ resp, (api_1_0_sessions_post true (GatwayAPI.mk "http://gw" "tok")
        (fun _ => Json.obj [("status_code", Json.num 500)])
        (some (Json.obj [("game", Json.str "pong")]))).2 = Except.ok resp)
    ∧ (∃ resp, (api_1_0_games_get true (GatwayAPI.mk "http://gw" "tok")
        (fun _ => Json.obj [("status_code", Json.num 200),
          ("metadata", Json.arr [Json.obj [("name", Json.str "a")], Json.obj [("x", Json.num 1)]])])).2
        = Except.ok resp) :=
  handlers_total_on_wellformed true (GatwayAPI.mk "http://gw" "tok")
    (some (Json.obj [("game", Json.str "pong")]))
    (Json.obj [("status_code", Json.num 500)])
    (Json.obj [("status_code", Json.num 200),
      ("metadata", Json.arr [Json.obj [("name", Json.str "a")], Json.obj [("x", Json.num 1)]])])
    rfl rfl rfl
